import Mathlib

set_option maxHeartbeats 1000000

/-
Shallow embedding of safexl (src/safexl/toolkit.py).

The program drives the external Excel application over COM.  The external world
is modelled by an explicit `AppState` record: whether an EXCEL.EXE process
exists, the application's `Visible` and `DisplayAlerts` flags, its
`StartupPath`, the open workbooks (each with its `FullName` and its windows),
and the add-ins.  Every stateful function of the source becomes a Lean function
from `AppState` to `AppState`, additionally returning the list of externally
observable actions it performed (`Event`s) and, where the source can raise, the
raised Python exception as a value (`PyErr`).  Python strings are modelled as
`String` (names) or `List Char` (the sanitizer); the Python substring test
`a in b` is the executable function `pyIn`.
-/

/-- Python exception values the embedded code can raise or wrap.
`excelError e` models `ExcelError(e)` applied to a caught exception object;
`excelErrorMsg m` models `ExcelError("m")` applied to a plain string;
`comError n` models a COM automation failure raised by the external
`wb.Close` call on the workbook named `n`; `userError m` models an arbitrary
exception raised by the caller-supplied body of the `with` block. -/
inductive PyErr where
  | userError (msg : String)
  | comError (name : String)
  | excelError (arg : PyErr)
  | excelErrorMsg (msg : String)
  deriving DecidableEq

/-- One window of a workbook: its `Visible` flag and its `WindowState`
(an Excel integer constant such as -4137 for maximized). -/
structure Window where
  visible : Bool
  windowState : Int
  deriving DecidableEq

/-- One open workbook: its `FullName` identity key, its windows, and the
externally determined fact whether a COM `Close` call on it raises
(`close_workbooks` has no exception handler, so this matters). -/
structure Workbook where
  fullName : String
  windows : List Window
  closeRaises : Bool
  deriving DecidableEq

/-- One Excel add-in: only its `Installed` flag is relevant to the code. -/
structure AddIn where
  installed : Bool
  deriving DecidableEq

/-- State of the external world that toolkit.py observes and mutates: the
EXCEL.EXE process, the application object's flags, its startup path, the open
workbooks and the add-ins. -/
structure AppState where
  excelRunning : Bool
  appVisible : Bool
  displayAlerts : Int
  startupPath : String
  workbooks : List Workbook
  addIns : List AddIn
  deriving DecidableEq

/-- Externally observable actions performed by the code, recorded as a trace:
a `wb.Close(SaveChanges=...)` call, the process-level kill of every Excel
instance, one add-in `Installed` off/on toggle, and one window-set action of
`see_excel` (all windows of the named workbook made visible and put in the
given window state). -/
inductive Event where
  | closeWb (name : String) (saveChanges : Bool)
  | killAll
  | addinToggle
  | windowSet (name : String) (windowState : Int)
  deriving DecidableEq

/-- Python substring test `needle in hay` on lists of characters: true iff
`needle` occurs contiguously inside `hay` (the empty needle always occurs). -/
def charsIn (needle : List Char) : List Char → Bool
  | [] => needle.isEmpty
  | c :: rest => needle.isPrefixOf (c :: rest) || charsIn needle rest

/-- Python substring test `needle in hay` on strings, as used by the source
expression `wb.Application.StartupPath in wb.FullName` inside `see_excel`. -/
def pyIn (needle hay : String) : Bool := charsIn needle.data hay.data

/-- Spec-side reading of the exclusion rule of `reveal`, following the spec's
words "unless the document's resolved path lies under that application's
auto-start directory": a path lies under a directory when the directory path is
a prefix of the document path.  This definition exists only to compare the
spec's wording with the source's substring test `pyIn`. -/
def liesUnder (dir path : String) : Bool := dir.data.isPrefixOf path.data

/-- The forbidden worksheet-name characters of `worksheet_name_sanitization`:
`("\\", "/", "*", "[", "]", ":", "?")`. -/
def invalid_ws_chars : List Char := ['\\', '/', '*', '[', ']', ':', '?']

/-- Embedding of `worksheet_name_sanitization` (toolkit.py lines 161-172).
Python strings are modelled as lists of characters and
`worksheet_name.replace(char, "")` as the filter removing every occurrence of
that single character; the loop over the seven forbidden characters is the
fold; then the emptiness check raising
`ExcelError("Worksheet name cannot be empty string")`, then `[:31]`. -/
def worksheet_name_sanitization (worksheet_name : List Char) : Except PyErr (List Char) :=
  let cleaned := invalid_ws_chars.foldl (fun n c => n.filter (fun x => !(x == c))) worksheet_name
  if cleaned.isEmpty then
    Except.error (PyErr.excelErrorMsg "Worksheet name cannot be empty string")
  else
    Except.ok (cleaned.take 31)

/-- Embedding of `is_excel_open`: the psutil process scan for EXCEL.EXE (with
`AccessDenied` processes skipped) observes exactly whether an Excel process
exists, i.e. the `excelRunning` component of the state. -/
def is_excel_open (s : AppState) : Bool := s.excelRunning

/-- Embedding of `win32com.client.Dispatch("Excel.Application")` as used at the
top of `application`: attaches to the running instance when one exists,
otherwise launches a fresh instance (which has no workbooks open). -/
def dispatchExcel (s : AppState) : AppState :=
  if s.excelRunning then s else { s with excelRunning := true, workbooks := [] }

/-- Embedding of `workbooks_currently_open`: turns `app.Workbooks` into a list,
i.e. reads the workbook list of the state. -/
def workbooks_currently_open (s : AppState) : List Workbook := s.workbooks

/-- Embedding of `kill_all_instances_of_excel` called with `app=None` (the only
way `application` calls it): every EXCEL.EXE process is killed, so no Excel
process remains and no workbook stays open.  The source swallows
`psutil.AccessDenied` and `psutil.NoSuchProcess` inside its loop, so the
function itself never raises. -/
def kill_all_instances_of_excel (s : AppState) : AppState × List Event :=
  ({ s with excelRunning := false, workbooks := [] }, [Event.killAll])

/-- Embedding of `new_workbooks` (toolkit.py lines 75-88).  The source receives
the app object and reads its current workbook list via
`workbooks_currently_open`; here that list is passed directly as
`app_workbooks`.  Python's `set` difference of full-name sets is modelled by
list filtering with membership (`List.contains`), which agrees with set
semantics for the final membership test. -/
def new_workbooks (app_workbooks : List Workbook)
    (workbooks_open_at_onset : List Workbook) : List Workbook :=
  let paths_for_workbooks_open_at_onset := workbooks_open_at_onset.map Workbook.fullName
  let currently_open_workbooks := app_workbooks
  let paths_for_currently_open_workbooks := currently_open_workbooks.map Workbook.fullName
  let paths_for_new_workbooks := paths_for_currently_open_workbooks.filter
    (fun p => !(paths_for_workbooks_open_at_onset.contains p))
  currently_open_workbooks.filter (fun wb => paths_for_new_workbooks.contains wb.fullName)

/-- Embedding of `close_workbooks` (toolkit.py lines 91-101).  For each
workbook in order: set `app.DisplayAlerts = 0`, call
`wb.Close(SaveChanges=False)` (which removes the workbook from the open list,
or raises a COM error when the external call fails - the source has no
exception handler here, so execution stops and the error propagates), then set
`app.DisplayAlerts = 1`.  Returns the final state, the trace of performed
close calls, and the raised error if any. -/
def close_workbooks : AppState → List Workbook → AppState × List Event × Option PyErr
  | s, [] => (s, [], none)
  | s, wb :: rest =>
    let s1 : AppState := { s with displayAlerts := 0 }
    if wb.closeRaises then
      (s1, [], some (PyErr.comError wb.fullName))
    else
      let s2 : AppState :=
        { s1 with workbooks := s1.workbooks.filter (fun w => !(w.fullName == wb.fullName)) }
      let s3 : AppState := { s2 with displayAlerts := 1 }
      let r := close_workbooks s3 rest
      (r.1, Event.closeWb wb.fullName false :: r.2.1, r.2.2)

/-- The window mutation `see_excel` performs on one workbook: every window made
visible and put in the given window state. -/
def revealWindows (window_state : Int) (wb : Workbook) : Workbook :=
  { wb with windows := wb.windows.map (fun w =>
      { w with visible := true, windowState := window_state }) }

/-- Embedding of `see_excel` (toolkit.py lines 104-124).  For each workbook in
order: set `wb.Application.Visible = True`; then, if
`wb.Application.StartupPath in wb.FullName` (Python substring test), `continue`
without touching any window; otherwise make every window of the workbook
visible and set its window state.  The window mutation acts on the workbook
with that full name inside the application's open-workbook list (the passed
handles alias the listed ones); setting `Visible` leaves `StartupPath`
unchanged, so the exclusion test reads the startup path of the incoming
state. -/
def see_excel : AppState → List Workbook → Int → AppState × List Event
  | s, [], _ => (s, [])
  | s, wb :: rest, window_state =>
    if pyIn s.startupPath wb.fullName then
      see_excel { s with appVisible := true } rest window_state
    else
      let s2 : AppState := { s with appVisible := true, workbooks := s.workbooks.map (fun w =>
        if w.fullName == wb.fullName then revealWindows window_state w else w) }
      let r := see_excel s2 rest window_state
      (r.1, Event.windowSet wb.fullName window_state :: r.2)

/-- Embedding of the add-in reload workaround inside `application`: for each
add-in, if `add_in.Installed` then set `Installed = False` and then
`Installed = True` (recorded as one `addinToggle` event). -/
def toggleAddins : List AddIn → List AddIn × List Event
  | [] => ([], [])
  | a :: rest =>
    if a.installed then
      let a1 : AddIn := { a with installed := false }
      let a2 : AddIn := { a1 with installed := true }
      let r := toggleAddins rest
      (a2 :: r.1, Event.addinToggle :: r.2)
    else
      let r := toggleAddins rest
      (a :: r.1, r.2)

/-- The caller-supplied body of the `with` block: arbitrary code that may
mutate the external state and may raise an exception. -/
def Body : Type := AppState → AppState × Option PyErr

/-- Embedding of the context manager `application` (toolkit.py lines 227-271),
covering one full `with safexl.application(...)` session: the pre-yield setup,
the body, and the `finally` reconciliation.

Mirrors the source line by line:
`open_at_onset = is_excel_open()`; `Dispatch("Excel.Application")`;
`workbooks_open_at_onset = workbooks_currently_open(_app)` when
`open_at_onset` else `[]`; run the body catching any exception into `err_msg`;
then in `finally`:
`workbooks_opened_during_with_block = new_workbooks(_app, workbooks_open_at_onset)`;
`if kill_after or err_msg:` then `if workbooks_open_at_onset:` close the
workbooks opened during the block (a close failure propagates immediately and
the final re-raise is never reached) `else` kill every Excel instance;
otherwise (success, leave alive) toggle the add-ins when `include_addins` and
run `see_excel(workbooks_opened_during_with_block, -4137 / -4140)`;
finally `raise ExcelError(err_msg)` when an exception had been caught.
Returns the final external state, the event trace, and the exception that
propagates to the caller (if any). -/
def application (kill_after maximize include_addins : Bool) (body : Body)
    (s0 : AppState) : AppState × List Event × Option PyErr :=
  let open_at_onset := is_excel_open s0
  let s1 := dispatchExcel s0
  let workbooks_open_at_onset := if open_at_onset then workbooks_currently_open s1 else []
  let bodyRes := body s1
  let s2 := bodyRes.1
  let err_msg := bodyRes.2
  let workbooks_opened_during_with_block :=
    new_workbooks (workbooks_currently_open s2) workbooks_open_at_onset
  if kill_after || err_msg.isSome then
    if workbooks_open_at_onset.isEmpty then
      let killRes := kill_all_instances_of_excel s2
      (killRes.1, killRes.2, err_msg.map PyErr.excelError)
    else
      let closeRes := close_workbooks s2 workbooks_opened_during_with_block
      (closeRes.1, closeRes.2.1,
        match closeRes.2.2 with
        | some ce => some ce
        | none => err_msg.map PyErr.excelError)
  else
    let addinRes := if include_addins then toggleAddins s2.addIns else (s2.addIns, [])
    let s3 : AppState := { s2 with addIns := addinRes.1 }
    let seeRes := see_excel s3 workbooks_opened_during_with_block
      (if maximize then (-4137 : Int) else (-4140 : Int))
    (seeRes.1, addinRes.2 ++ seeRes.2, none)

/-- The onset snapshot taken by `application` on state `s0`: the workbooks open
right after `Dispatch` when Excel was already open at onset, the empty list
otherwise. -/
def sessionOnset (s0 : AppState) : List Workbook :=
  if is_excel_open s0 then workbooks_currently_open (dispatchExcel s0) else []

/-- The external state right after the caller-supplied body of the `with`
block has run. -/
def sessionBodyState (body : Body) (s0 : AppState) : AppState :=
  (body (dispatchExcel s0)).1

/-- The exception raised by the caller-supplied body, if any. -/
def sessionErr (body : Body) (s0 : AppState) : Option PyErr :=
  (body (dispatchExcel s0)).2

/-- The workbooks opened during the `with` block, as `application` computes
them: `new_workbooks` of the post-body list against the onset snapshot. -/
def sessionCreated (body : Body) (s0 : AppState) : List Workbook :=
  new_workbooks (workbooks_currently_open (sessionBodyState body s0)) (sessionOnset s0)

/-- Events emitted by the cleanup branch of `application` (workbook closes and
the process kill), as opposed to the reveal / add-in events of the success
branch. -/
def isCleanupEvent : Event → Bool
  | Event.closeWb _ _ => true
  | Event.killAll => true
  | _ => false

/-- A window that is hidden and in the normal window state. -/
def winHidden : Window := { visible := false, windowState := -4143 }

/-- An unsaved workbook created during a session. -/
def wbBook1 : Workbook := { fullName := "Book1", windows := [winHidden], closeRaises := false }

/-- A pre-existing saved workbook. -/
def wbOld : Workbook := { fullName := "C:/old.xlsx", windows := [winHidden], closeRaises := false }

/-- A workbook whose external COM `Close` call fails. -/
def wbBad : Workbook := { fullName := "C:/new.xlsx", windows := [winHidden], closeRaises := true }

/-- A workbook whose full name merely contains the string "Lib" in the middle
of its path. -/
def wbLib : Workbook := { fullName := "C:/Lib/f.xlsx", windows := [winHidden], closeRaises := false }

/-- Initial state: Excel not running, nothing open, startup path `C:/XLSTART`. -/
def sNotRunning : AppState :=
  { excelRunning := false, appVisible := false, displayAlerts := 1,
    startupPath := "C:/XLSTART", workbooks := [], addIns := [] }

/-- Initial state: Excel already running but with zero workbooks open. -/
def sRunningNoDocs : AppState := { sNotRunning with excelRunning := true }

/-- Initial state: Excel already running with one pre-existing workbook. -/
def sRunningOld : AppState :=
  { sNotRunning with excelRunning := true, workbooks := [wbOld] }

/-- State whose startup path `Lib` occurs inside `wbLib`'s full name without
being a path prefix of it, with `wbLib` open. -/
def sLib : AppState :=
  { sNotRunning with excelRunning := true, startupPath := "Lib", workbooks := [wbLib] }

/-- Body that opens one new workbook and succeeds. -/
def bodyAddBook1 : Body :=
  fun s => ({ s with workbooks := s.workbooks ++ [wbBook1] }, none)

/-- Body that opens one new workbook and then raises `userError "boom"`. -/
def bodyFailBook1 : Body :=
  fun s => ({ s with workbooks := s.workbooks ++ [wbBook1] }, some (PyErr.userError "boom"))

/-- Body that opens one workbook whose `Close` fails and then raises
`userError "boom"`. -/
def bodyFailBad : Body :=
  fun s => ({ s with workbooks := s.workbooks ++ [wbBad] }, some (PyErr.userError "boom"))

/-- Initial state: Excel already running with one pre-existing workbook, one
installed add-in and one uninstalled add-in. -/
def sRunningOldAddins : AppState :=
  { sRunningOld with addIns := [{ installed := true }, { installed := false }] }

deriving instance DecidableEq for Except

theorem contains_eq_true_iff {α : Type} [BEq α] [LawfulBEq α] (l : List α) (a : α) :
    l.contains a = true ↔ a ∈ l := by
  simp [List.contains]

theorem sanitize_foldl_filter (cs : List Char) (n : List Char) :
    cs.foldl (fun n c => n.filter (fun x => !(x == c))) n
      = n.filter (fun x => !(cs.contains x)) := by
  induction cs generalizing n with
  | nil => simp [List.contains]
  | cons c cs ih =>
    rw [List.foldl_cons, ih, List.filter_filter]
    apply List.filter_congr
    intro x _
    rw [List.contains_cons, Bool.not_or, Bool.and_comm]

theorem worksheet_name_sanitization_eq (name : List Char) :
    worksheet_name_sanitization name =
      (if (name.filter (fun x => !(invalid_ws_chars.contains x))).isEmpty then
        Except.error (PyErr.excelErrorMsg "Worksheet name cannot be empty string")
      else
        Except.ok ((name.filter (fun x => !(invalid_ws_chars.contains x))).take 31)) := by
  rw [worksheet_name_sanitization, sanitize_foldl_filter]

/-- Claim C7: for every input string, `worksheet_name_sanitization` removes
every occurrence of each of the characters `\ / * [ ] : ?` while preserving
the order of the remaining characters (the result is exactly the
order-preserving filter of the input, truncated to 31), returns a result of
length at most 31 that is a subsequence of the input and holds no forbidden
character, and fails with the invalid-name `ExcelError` exactly when the
string left after removal is empty (covering the empty input and inputs made
only of forbidden characters). -/
theorem worksheet_name_sanitization_spec (name : List Char) :
    (worksheet_name_sanitization name =
      if (name.filter (fun x => !(invalid_ws_chars.contains x))).isEmpty then
        Except.error (PyErr.excelErrorMsg "Worksheet name cannot be empty string")
      else
        Except.ok ((name.filter (fun x => !(invalid_ws_chars.contains x))).take 31)) ∧
    ((worksheet_name_sanitization name).toOption.getD []).length ≤ 31 ∧
    ((worksheet_name_sanitization name).toOption.getD []).Sublist name ∧
    invalid_ws_chars.all
      (fun c => !(((worksheet_name_sanitization name).toOption.getD []).contains c)) = true := by
  have heq := worksheet_name_sanitization_eq name
  by_cases h : (name.filter (fun x => !(invalid_ws_chars.contains x))).isEmpty = true
  · rw [if_pos h] at heq
    rw [heq]
    refine ⟨by rw [if_pos h], ?_, ?_, ?_⟩ <;> simp [Except.toOption]
  · rw [if_neg h] at heq
    rw [heq]
    refine ⟨by rw [if_neg h], ?_, ?_, ?_⟩
    · simp [Except.toOption, List.length_take]
    · simp only [Except.toOption, Option.getD_some]
      exact (List.take_sublist _ _).trans (List.filter_sublist _)
    · rw [List.all_eq_true]
      intro c hc
      rw [Bool.not_eq_true']
      cases hb : ((Except.ok ((name.filter (fun x =>
          !(invalid_ws_chars.contains x))).take 31) :
          Except PyErr (List Char)).toOption.getD []).contains c with
      | false => rfl
      | true =>
        exfalso
        have hmem : c ∈ (name.filter (fun x => !(invalid_ws_chars.contains x))).take 31 := by
          have := (contains_eq_true_iff _ c).mp hb
          simpa [Except.toOption] using this
        have hfil := (List.take_sublist _ _).subset hmem
        have hprop := (List.mem_filter.mp hfil).2
        rw [Bool.not_eq_true'] at hprop
        rw [(contains_eq_true_iff _ c).mpr hc] at hprop
        simp at hprop

/-- Claim C8: `worksheet_name_sanitization` is idempotent on every input on
which it does not fail: if sanitizing `x` returns `r`, then sanitizing `r`
returns `r` again. -/
theorem worksheet_name_sanitization_idem (x r : List Char)
    (h : worksheet_name_sanitization x = Except.ok r) :
    worksheet_name_sanitization r = Except.ok r := by
  rw [worksheet_name_sanitization_eq] at h
  rw [worksheet_name_sanitization_eq]
  by_cases hx : (x.filter (fun c => !(invalid_ws_chars.contains c))).isEmpty = true
  · rw [if_pos hx] at h
    exact absurd h (by simp)
  · rw [if_neg hx] at h
    have hr : r = (x.filter (fun c => !(invalid_ws_chars.contains c))).take 31 :=
      (Except.ok.inj h).symm
    have hall : ∀ c ∈ r, (!(invalid_ws_chars.contains c)) = true := by
      intro c hc
      rw [hr] at hc
      exact (List.mem_filter.mp ((List.take_sublist _ _).subset hc)).2
    have hfilter : r.filter (fun c => !(invalid_ws_chars.contains c)) = r :=
      List.filter_eq_self.mpr hall
    rw [hfilter]
    have hne : r ≠ [] := by
      rw [hr]
      intro hcon
      rcases List.take_eq_nil_iff.mp hcon with h31 | hnil
      · omega
      · exact hx (List.isEmpty_iff.mpr hnil)
    have hlen : r.length ≤ 31 := by
      rw [hr]; simp [List.length_take]
    rw [if_neg (fun hh => hne (List.isEmpty_iff.mp hh)), List.take_of_length_le hlen]

/-- Witness for C8 at a concrete input: sanitizing `"a["` yields `"a"`, and the
theorem applied there shows sanitizing `"a"` yields `"a"` again. -/
theorem worksheet_name_sanitization_idem_witness :
    worksheet_name_sanitization ['a', '['] = Except.ok ['a'] ∧
    worksheet_name_sanitization ['a'] = Except.ok ['a'] :=
  ⟨by decide, worksheet_name_sanitization_idem ['a', '['] ['a'] (by decide)⟩

theorem new_workbooks_eq (cur onset : List Workbook) :
    new_workbooks cur onset
      = cur.filter (fun wb => !((onset.map Workbook.fullName).contains wb.fullName)) := by
  show cur.filter (fun wb => (((cur.map Workbook.fullName).filter
      (fun p => !((onset.map Workbook.fullName).contains p))).contains wb.fullName)) = _
  apply List.filter_congr
  intro wb hwb
  cases hob : (onset.map Workbook.fullName).contains wb.fullName with
  | true =>
    rw [Bool.not_true, Bool.eq_false_iff]
    intro hcon
    have hm := (contains_eq_true_iff _ _).mp hcon
    have h2 := (List.mem_filter.mp hm).2
    rw [hob] at h2
    simp at h2
  | false =>
    rw [Bool.not_false]
    apply (contains_eq_true_iff _ _).mpr
    apply List.mem_filter.mpr
    exact ⟨List.mem_map_of_mem _ hwb, by rw [hob]; rfl⟩

/-- Claim C6: `new_workbooks` (the snapshot diff) returns exactly the handles
of the current (`after`) list whose identity key (full name) is not in the
identity-key set of the onset (`before`) list, in `after`'s iteration order
(it is precisely the order-preserving filter of `after`); it is a pure
function of its arguments (modelled as such because the source only reads the
handles); and diffing a snapshot against itself is empty, which also gives
`after - before` exactly when `after` contains `before` by identity key. -/
theorem new_workbooks_spec (before after : List Workbook) :
    new_workbooks after before
      = after.filter (fun wb => !((before.map Workbook.fullName).contains wb.fullName)) ∧
    new_workbooks before before = [] := by
  refine ⟨new_workbooks_eq after before, ?_⟩
  rw [new_workbooks_eq, List.filter_eq_nil_iff]
  intro wb hwb
  rw [Bool.not_eq_true', Bool.not_eq_false]
  exact (contains_eq_true_iff _ _).mpr (List.mem_map_of_mem _ hwb)

theorem revealWindows_fullName (window_state : Int) (wb : Workbook) :
    (revealWindows window_state wb).fullName = wb.fullName := rfl

theorem revealWindows_idem (window_state : Int) (wb : Workbook) :
    revealWindows window_state (revealWindows window_state wb)
      = revealWindows window_state wb := by
  unfold revealWindows
  simp only [List.map_map]
  rfl

theorem see_excel_upd_comp (sp : String) (window_state : Int) (t : Workbook)
    (ts : List Workbook) (h : pyIn sp t.fullName = false) (w : Workbook) :
    (fun w => if w.fullName ∈ (ts.filter
        (fun x => !(pyIn sp x.fullName))).map Workbook.fullName
      then revealWindows window_state w else w)
    ((fun w => if w.fullName == t.fullName then revealWindows window_state w else w) w)
    = (if w.fullName ∈ ((t :: ts).filter
        (fun x => !(pyIn sp x.fullName))).map Workbook.fullName
      then revealWindows window_state w else w) := by
  rw [List.filter_cons_of_pos (by rw [h]; rfl), List.map_cons]
  simp only []
  by_cases hw : w.fullName = t.fullName
  · rw [if_pos (beq_iff_eq.mpr hw), revealWindows_fullName, revealWindows_idem, ite_self,
      if_pos (by rw [hw]; exact List.mem_cons_self _ _)]
  · rw [if_neg (fun hh => hw (beq_iff_eq.mp hh))]
    by_cases hmem : w.fullName ∈ (ts.filter
        (fun x => !(pyIn sp x.fullName))).map Workbook.fullName
    · rw [if_pos hmem, if_pos (List.mem_cons_of_mem _ hmem)]
    · rw [if_neg hmem, if_neg (fun hc => (List.mem_cons.mp hc).elim hw hmem)]

theorem see_excel_eq (s : AppState) (targets : List Workbook) (window_state : Int) :
    see_excel s targets window_state =
      ({ s with
          appVisible := if targets.isEmpty then s.appVisible else true,
          workbooks := s.workbooks.map (fun w =>
            if w.fullName ∈ (targets.filter
                (fun t => !(pyIn s.startupPath t.fullName))).map Workbook.fullName
            then revealWindows window_state w else w) },
       (targets.filter (fun t => !(pyIn s.startupPath t.fullName))).map
         (fun t => Event.windowSet t.fullName window_state)) := by
  induction targets generalizing s with
  | nil =>
    simp [see_excel]
  | cons t ts ih =>
    simp only [see_excel]
    by_cases h : pyIn s.startupPath t.fullName = true
    · rw [if_pos h, ih, List.filter_cons_of_neg (by simp [h])]
      simp
    · rw [if_neg h, ih]
      rw [Bool.not_eq_true] at h
      simp only [Prod.mk.injEq]
      refine ⟨?_, ?_⟩
      · simp only [List.map_map]
        rw [show ((fun w => if w.fullName ∈ (ts.filter
              (fun x => !(pyIn s.startupPath x.fullName))).map Workbook.fullName
              then revealWindows window_state w else w) ∘
            (fun w => if w.fullName == t.fullName then revealWindows window_state w else w))
            = (fun w => if w.fullName ∈ ((t :: ts).filter
              (fun x => !(pyIn s.startupPath x.fullName))).map Workbook.fullName
              then revealWindows window_state w else w) from
            funext (see_excel_upd_comp s.startupPath window_state t ts h)]
        simp
      · rw [List.filter_cons_of_pos (by simp [h])]
        simp

/-- Counterexample to claim C5 as stated: in state `sLib` the auto-start
directory is `Lib` and the open document `wbLib` is `C:/Lib/f.xlsx`, whose
resolved path does not lie under the directory `Lib` (the directory path is
not a prefix of the document path), yet the source's exclusion test - the
Python substring test `StartupPath in FullName` - matches it; consequently
`see_excel` on this document leaves its (hidden) window untouched, where the
claim required every window of a document not lying under the auto-start
directory to be made visible and put in the requested window state. -/
theorem see_excel_liesUnder_cex :
    liesUnder sLib.startupPath wbLib.fullName = false ∧
    pyIn sLib.startupPath wbLib.fullName = true ∧
    (see_excel sLib [wbLib] (-4137)).1.workbooks = [wbLib] ∧
    wbLib.windows = [winHidden] ∧
    winHidden.visible = false := by
  decide

/-- Claim C5, amended: for every collection of documents and every window
state, `see_excel` sets the owning application visible (whenever the
collection is nonempty), and then, for exactly those documents of the
collection whose full name does not contain the application's auto-start
path as a substring (the source's Python test `StartupPath in FullName`,
rather than the spec's "path lies under the auto-start directory"), sets
every window of the document visible and to the given window state; documents
whose full name contains the startup path - and all other workbooks - have no
window touched, and nothing else of the state changes. -/
theorem see_excel_reveal_spec (s : AppState) (targets : List Workbook) (window_state : Int) :
    ((see_excel s targets window_state).1.appVisible
        = (if targets.isEmpty then s.appVisible else true)) ∧
    ((see_excel s targets window_state).1.workbooks = s.workbooks.map (fun w =>
        if w.fullName ∈ (targets.filter
            (fun t => !(pyIn s.startupPath t.fullName))).map Workbook.fullName
        then revealWindows window_state w else w)) ∧
    (see_excel s targets window_state).1.excelRunning = s.excelRunning ∧
    (see_excel s targets window_state).1.displayAlerts = s.displayAlerts ∧
    (see_excel s targets window_state).1.startupPath = s.startupPath ∧
    (see_excel s targets window_state).1.addIns = s.addIns := by
  refine ⟨?_, ?_, ?_, ?_, ?_, ?_⟩ <;> rw [see_excel_eq]

theorem close_workbooks_fields (s : AppState) (wbs : List Workbook) :
    (close_workbooks s wbs).1.excelRunning = s.excelRunning ∧
    (close_workbooks s wbs).1.appVisible = s.appVisible ∧
    (close_workbooks s wbs).1.startupPath = s.startupPath ∧
    (close_workbooks s wbs).1.addIns = s.addIns := by
  induction wbs generalizing s with
  | nil => exact ⟨rfl, rfl, rfl, rfl⟩
  | cons wb rest ih =>
    simp only [close_workbooks]
    by_cases h : wb.closeRaises = true
    · rw [if_pos h]; exact ⟨rfl, rfl, rfl, rfl⟩
    · rw [if_neg h]; exact ih _

theorem close_workbooks_preserves (s : AppState) (wbs : List Workbook) (w : Workbook)
    (hw : w ∈ s.workbooks) (hname : w.fullName ∉ wbs.map Workbook.fullName) :
    w ∈ (close_workbooks s wbs).1.workbooks := by
  induction wbs generalizing s with
  | nil => exact hw
  | cons wb rest ih =>
    rw [List.map_cons] at hname
    have h1 : w.fullName ≠ wb.fullName := fun hh => hname (hh ▸ List.mem_cons_self _ _)
    have h2 : w.fullName ∉ rest.map Workbook.fullName :=
      fun hh => hname (List.mem_cons_of_mem _ hh)
    simp only [close_workbooks]
    by_cases h : wb.closeRaises = true
    · rw [if_pos h]; exact hw
    · rw [if_neg h]
      apply ih _ _ h2
      apply List.mem_filter.mpr
      refine ⟨hw, ?_⟩
      rw [Bool.not_eq_true']
      exact beq_eq_false_iff_ne.mpr h1

theorem close_workbooks_err_none (s : AppState) (wbs : List Workbook)
    (h : ∀ wb ∈ wbs, wb.closeRaises = false) :
    (close_workbooks s wbs).2.2 = none := by
  induction wbs generalizing s with
  | nil => rfl
  | cons wb rest ih =>
    simp only [close_workbooks]
    rw [if_neg (by simp [h wb (List.mem_cons_self _ _)])]
    exact ih _ (fun x hx => h x (List.mem_cons_of_mem _ hx))

theorem close_workbooks_none_workbooks (s : AppState) (wbs : List Workbook)
    (h : (close_workbooks s wbs).2.2 = none) :
    (close_workbooks s wbs).1.workbooks
      = s.workbooks.filter (fun w => !((wbs.map Workbook.fullName).contains w.fullName)) := by
  induction wbs generalizing s with
  | nil => simp [close_workbooks]
  | cons wb rest ih =>
    by_cases hc : wb.closeRaises = true
    · exfalso
      simp only [close_workbooks] at h
      rw [if_pos hc] at h
      simp at h
    · simp only [close_workbooks] at h ⊢
      rw [if_neg hc] at h ⊢
      rw [ih _ h, List.filter_filter]
      apply List.filter_congr
      intro x _
      rw [List.map_cons, List.contains_cons, Bool.not_or, Bool.and_comm]

theorem close_workbooks_none_events (s : AppState) (wbs : List Workbook)
    (h : (close_workbooks s wbs).2.2 = none) :
    (close_workbooks s wbs).2.1 = wbs.map (fun wb => Event.closeWb wb.fullName false) := by
  induction wbs generalizing s with
  | nil => rfl
  | cons wb rest ih =>
    by_cases hc : wb.closeRaises = true
    · exfalso
      simp only [close_workbooks] at h
      rw [if_pos hc] at h
      simp at h
    · simp only [close_workbooks] at h ⊢
      rw [if_neg hc] at h ⊢
      rw [List.map_cons, ih _ h]

theorem close_workbooks_none_alerts (s : AppState) (wbs : List Workbook)
    (h : (close_workbooks s wbs).2.2 = none) (hne : wbs ≠ []) :
    (close_workbooks s wbs).1.displayAlerts = 1 := by
  induction wbs generalizing s with
  | nil => exact absurd rfl hne
  | cons wb rest ih =>
    by_cases hc : wb.closeRaises = true
    · exfalso
      simp only [close_workbooks] at h
      rw [if_pos hc] at h
      simp at h
    · simp only [close_workbooks] at h ⊢
      rw [if_neg hc] at h ⊢
      by_cases hr : rest = []
      · subst hr; rfl
      · exact ih _ h hr

theorem close_workbooks_events_shape (s : AppState) (wbs : List Workbook) :
    ∀ ev ∈ (close_workbooks s wbs).2.1,
      isCleanupEvent ev = true ∧ ∃ nm, ev = Event.closeWb nm false := by
  induction wbs generalizing s with
  | nil => intro ev hev; exact absurd hev (List.not_mem_nil _)
  | cons wb rest ih =>
    simp only [close_workbooks]
    by_cases hc : wb.closeRaises = true
    · rw [if_pos hc]; intro ev hev; exact absurd hev (List.not_mem_nil _)
    · rw [if_neg hc]
      intro ev hev
      rcases List.mem_cons.mp hev with h1 | h2
      · subst h1; exact ⟨rfl, wb.fullName, rfl⟩
      · exact ih _ ev h2

/-- Claim C10: `close_workbooks` closes each workbook with
`SaveChanges=False` - every close call it performs, on every execution path,
carries `saveChanges = false` (it never saves) - and whenever it returns
normally (no close raised) it performed exactly one such close per workbook
of the collection, and on a non-empty collection it leaves the application's
`DisplayAlerts` equal to `1`, regardless of the value on entry. -/
theorem close_workbooks_spec (s : AppState) (wbs : List Workbook) :
    (∀ ev ∈ (close_workbooks s wbs).2.1, ∃ nm, ev = Event.closeWb nm false) ∧
    ((close_workbooks s wbs).2.2 = none →
      (close_workbooks s wbs).2.1 = wbs.map (fun wb => Event.closeWb wb.fullName false) ∧
      (wbs ≠ [] → (close_workbooks s wbs).1.displayAlerts = 1)) := by
  refine ⟨fun ev hev => (close_workbooks_events_shape s wbs ev hev).2, fun h => ?_⟩
  exact ⟨close_workbooks_none_events s wbs h, close_workbooks_none_alerts s wbs h⟩

/-- Witness for C10 at a concrete input: closing the single pre-existing
workbook succeeds, emits exactly one never-saving close, and leaves
`DisplayAlerts = 1` although it was `1` flipped to `0` in between (entry value
of the scenario state is irrelevant). -/
theorem close_workbooks_spec_witness :
    (close_workbooks sRunningOld [wbOld]).2.2 = none ∧
    (close_workbooks sRunningOld [wbOld]).2.1 = [Event.closeWb "C:/old.xlsx" false] ∧
    (close_workbooks sRunningOld [wbOld]).1.displayAlerts = 1 := by
  refine ⟨by decide, ?_, ?_⟩
  · exact (((close_workbooks_spec sRunningOld [wbOld]).2 (by decide)).1).trans (by decide)
  · exact ((close_workbooks_spec sRunningOld [wbOld]).2 (by decide)).2 (by decide)

theorem application_cleanup_kill (ka mx ia : Bool) (body : Body) (s0 : AppState)
    (hclean : ka = true ∨ (sessionErr body s0).isSome = true)
    (honset : (sessionOnset s0).isEmpty = true) :
    application ka mx ia body s0 =
      ({ sessionBodyState body s0 with excelRunning := false, workbooks := [] },
       [Event.killAll],
       (sessionErr body s0).map PyErr.excelError) := by
  have hc : (ka || (sessionErr body s0).isSome) = true := by
    rcases hclean with h | h
    · rw [h]; rfl
    · rw [h, Bool.or_true]
  unfold sessionErr at hc
  unfold sessionOnset at honset
  simp only [application]
  rw [if_pos hc, if_pos honset]
  rfl

theorem application_cleanup_close (ka mx ia : Bool) (body : Body) (s0 : AppState)
    (hclean : ka = true ∨ (sessionErr body s0).isSome = true)
    (honset : (sessionOnset s0).isEmpty = false) :
    application ka mx ia body s0 =
      ((close_workbooks (sessionBodyState body s0) (sessionCreated body s0)).1,
       (close_workbooks (sessionBodyState body s0) (sessionCreated body s0)).2.1,
       (match (close_workbooks (sessionBodyState body s0) (sessionCreated body s0)).2.2 with
        | some ce => some ce
        | none => (sessionErr body s0).map PyErr.excelError)) := by
  have hc : (ka || (sessionErr body s0).isSome) = true := by
    rcases hclean with h | h
    · rw [h]; rfl
    · rw [h, Bool.or_true]
  unfold sessionErr at hc
  unfold sessionOnset at honset
  simp only [application]
  rw [if_pos hc, if_neg (by rw [honset]; exact Bool.false_ne_true)]
  rfl

theorem application_success (ka mx ia : Bool) (body : Body) (s0 : AppState)
    (hka : ka = false) (herr : sessionErr body s0 = none) :
    application ka mx ia body s0 =
      ((see_excel
          { sessionBodyState body s0 with
              addIns := (if ia then toggleAddins (sessionBodyState body s0).addIns
                else ((sessionBodyState body s0).addIns, [])).1 }
          (sessionCreated body s0) (if mx then (-4137 : Int) else -4140)).1,
       (if ia then toggleAddins (sessionBodyState body s0).addIns
        else ((sessionBodyState body s0).addIns, [])).2
         ++ (see_excel
          { sessionBodyState body s0 with
              addIns := (if ia then toggleAddins (sessionBodyState body s0).addIns
                else ((sessionBodyState body s0).addIns, [])).1 }
          (sessionCreated body s0) (if mx then (-4137 : Int) else -4140)).2,
       none) := by
  subst hka
  unfold sessionErr at herr
  simp only [application]
  rw [if_neg (by rw [herr]; simp)]
  rfl

theorem toggleAddins_eq (l : List AddIn) :
    toggleAddins l = (l, (l.filter (fun a => a.installed)).map (fun _ => Event.addinToggle)) := by
  induction l with
  | nil => rfl
  | cons a rest ih =>
    simp only [toggleAddins]
    by_cases h : a.installed = true
    · rw [if_pos h, ih, List.filter_cons_of_pos h, List.map_cons]
      have ha : ({ installed := true } : AddIn) = a := by
        cases a with
        | mk inst =>
          have hi : inst = true := h
          rw [hi]
      rw [ha]
    · rw [if_neg h, ih, List.filter_cons_of_neg h]

theorem sessionCreated_names (body : Body) (s0 : AppState) (wb : Workbook)
    (h : wb ∈ sessionCreated body s0) :
    wb ∈ (sessionBodyState body s0).workbooks ∧
    wb.fullName ∉ (sessionOnset s0).map Workbook.fullName := by
  unfold sessionCreated at h
  rw [new_workbooks_eq] at h
  have h2 := List.mem_filter.mp h
  refine ⟨h2.1, fun hc => ?_⟩
  have h3 := h2.2
  rw [Bool.not_eq_true'] at h3
  rw [(contains_eq_true_iff _ _).mpr hc] at h3
  simp at h3

/-- Counterexample to claim C1 as stated: in state `sRunningNoDocs` the host
application is already running at session start (but with zero documents
open), a session with `kill_after = true` runs a body that creates one
document, and yet the cleanup tears the whole application down with
`kill_all` (the process is gone afterwards) instead of closing only the
session-created documents and letting the application survive - because the
source selects the cleanup action on `if workbooks_open_at_onset:` (the onset
document snapshot being non-empty), not on whether the application was
already running. -/
theorem application_cleanup_not_by_running_cex :
    is_excel_open sRunningNoDocs = true ∧
    (application true true false bodyAddBook1 sRunningNoDocs).1.excelRunning = false ∧
    (application true true false bodyAddBook1 sRunningNoDocs).2.1 = [Event.killAll] := by
  decide

/-- Claim C1, amended: for every session whose cleanup path is taken
(`kill_after` true or the body raised), the cleanup action is selected by
whether any documents were open at session start - i.e. by the onset document
snapshot being non-empty, not by whether the application process was already
running: if the snapshot is non-empty, only the session-created documents are
closed (the application process state and every document whose name is in the
onset snapshot survive untouched); if the snapshot is empty, `kill_all` tears
the whole application down. -/
theorem application_cleanup_by_onset_snapshot (ka mx ia : Bool) (body : Body) (s0 : AppState)
    (hclean : ka = true ∨ (sessionErr body s0).isSome = true) :
    ((sessionOnset s0).isEmpty = true →
      (application ka mx ia body s0).1.excelRunning = false ∧
      (application ka mx ia body s0).1.workbooks = [] ∧
      (application ka mx ia body s0).2.1 = [Event.killAll]) ∧
    ((sessionOnset s0).isEmpty = false →
      (application ka mx ia body s0).1.excelRunning = (sessionBodyState body s0).excelRunning ∧
      (∀ w ∈ (sessionBodyState body s0).workbooks,
        w.fullName ∈ (sessionOnset s0).map Workbook.fullName →
        w ∈ (application ka mx ia body s0).1.workbooks) ∧
      ((close_workbooks (sessionBodyState body s0) (sessionCreated body s0)).2.2 = none →
        (application ka mx ia body s0).1.workbooks
          = (sessionBodyState body s0).workbooks.filter
              (fun w => !(((sessionCreated body s0).map Workbook.fullName).contains w.fullName)))) := by
  constructor
  · intro honset
    rw [application_cleanup_kill ka mx ia body s0 hclean honset]
    exact ⟨rfl, rfl, rfl⟩
  · intro honset
    rw [application_cleanup_close ka mx ia body s0 hclean honset]
    refine ⟨(close_workbooks_fields _ _).1, ?_, ?_⟩
    · intro w hw hname
      apply close_workbooks_preserves _ _ _ hw
      intro hc
      rcases List.mem_map.mp hc with ⟨wb, hwb, hfn⟩
      have hdis := (sessionCreated_names body s0 wb hwb).2
      rw [hfn] at hdis
      exact hdis hname
    · intro hnone
      exact close_workbooks_none_workbooks _ _ hnone

/-- Witness for the amended C1 at a concrete input: host running with one
pre-existing document, `kill_after = true`, body creates one document; the
theorem yields that the application survives and only the created document is
closed (the pre-existing one remains). -/
theorem application_cleanup_by_onset_snapshot_witness :
    (application true true false bodyAddBook1 sRunningOld).1.excelRunning = true ∧
    (application true true false bodyAddBook1 sRunningOld).1.workbooks = [wbOld] := by
  have h := (application_cleanup_by_onset_snapshot true true false bodyAddBook1 sRunningOld
    (Or.inl rfl)).2 (by decide)
  refine ⟨(h.1).trans (by decide), ((h.2.2 (by decide))).trans (by decide)⟩

/-- Counterexample to claim C2 as stated: for a body that raises
`userError "boom"`, what propagates to the caller is not the original
exception but `ExcelError(e)` wrapping it - the source's
`raise ExcelError(err_msg)` constructs a new exception whose argument is the
caught one, so a caller matching on the original exception type would not
catch it. -/
theorem application_wraps_exception_cex :
    sessionErr bodyFailBook1 sNotRunning = some (PyErr.userError "boom") ∧
    (application false true false bodyFailBook1 sNotRunning).2.2
      = some (PyErr.excelError (PyErr.userError "boom")) ∧
    some (PyErr.excelError (PyErr.userError "boom")) ≠ some (PyErr.userError "boom") := by
  decide

/-- Claim C2, amended: for every body passed to `application`, if the body
raises an error then the reconciliation/cleanup step still runs on that exit
path - the trace shows the cleanup action (the kill, or one close per
session-created workbook) was performed - and, provided the cleanup's own
close calls do not raise, after cleanup completes an `ExcelError` wrapping
the original exception (not the original exception itself) propagates to the
caller. -/
theorem application_failure_cleanup_and_wrap (ka mx ia : Bool) (body : Body) (s0 : AppState)
    (e : PyErr) (hfail : sessionErr body s0 = some e)
    (hok : ∀ wb ∈ sessionCreated body s0, wb.closeRaises = false) :
    (application ka mx ia body s0).2.2 = some (PyErr.excelError e) ∧
    (application ka mx ia body s0).2.1 =
      (if (sessionOnset s0).isEmpty then [Event.killAll]
       else (sessionCreated body s0).map (fun wb => Event.closeWb wb.fullName false)) := by
  have hclean : ka = true ∨ (sessionErr body s0).isSome = true := Or.inr (by rw [hfail]; rfl)
  by_cases honset : (sessionOnset s0).isEmpty = true
  · rw [application_cleanup_kill ka mx ia body s0 hclean honset, if_pos honset]
    constructor
    · show Option.map PyErr.excelError (sessionErr body s0) = _
      rw [hfail]
      rfl
    · rfl
  · have hf : (sessionOnset s0).isEmpty = false := Bool.eq_false_iff.mpr honset
    rw [application_cleanup_close ka mx ia body s0 hclean hf, if_neg honset]
    have hnone := close_workbooks_err_none (sessionBodyState body s0) (sessionCreated body s0) hok
    constructor
    · show (match (close_workbooks (sessionBodyState body s0) (sessionCreated body s0)).2.2 with
            | some ce => some ce
            | none => Option.map PyErr.excelError (sessionErr body s0)) = _
      rw [hnone, hfail]
      rfl
    · show (close_workbooks (sessionBodyState body s0) (sessionCreated body s0)).2.1 = _
      exact close_workbooks_none_events _ _ hnone

/-- Witness for the amended C2 at a concrete input: Excel not running, the
body creates a workbook and raises; cleanup kills every instance and the
wrapped original exception propagates. -/
theorem application_failure_cleanup_and_wrap_witness :
    (application false true false bodyFailBook1 sNotRunning).2.2
      = some (PyErr.excelError (PyErr.userError "boom")) ∧
    (application false true false bodyFailBook1 sNotRunning).2.1 = [Event.killAll] := by
  have h := application_failure_cleanup_and_wrap false true false bodyFailBook1 sNotRunning
    (PyErr.userError "boom") (by decide) (by decide)
  exact ⟨h.1, h.2.trans (by decide)⟩

/-- Counterexample to claim C4 as stated: Excel is already running with one
pre-existing workbook, the body opens a workbook whose external `Close` call
fails and then raises `userError "boom"`; the cleanup's close call raises and
is NOT swallowed - the COM error propagates to the caller, masking the
original session failure (neither the original exception nor its ExcelError
wrapping reaches the caller). -/
theorem application_close_error_masks_cex :
    sessionErr bodyFailBad sRunningOld = some (PyErr.userError "boom") ∧
    (application false true false bodyFailBad sRunningOld).2.2
      = some (PyErr.comError "C:/new.xlsx") ∧
    (some (PyErr.comError "C:/new.xlsx") : Option PyErr) ≠ some (PyErr.userError "boom") ∧
    (some (PyErr.comError "C:/new.xlsx") : Option PyErr)
      ≠ some (PyErr.excelError (PyErr.userError "boom")) := by
  decide

/-- Claim C4, amended: for every session whose body raises, the kill-path
cleanup never raises (the process-kill races are swallowed inside
`kill_all_instances_of_excel`), so there the wrapped original failure reaches
the caller; but on the close path cleanup is not best-effort: if a
`wb.Close` call inside `close_workbooks` fails, that cleanup error propagates
and masks the original session failure, and only when every close succeeds
does the wrapped original failure reach the caller. -/
theorem application_cleanup_error_policy (ka mx ia : Bool) (body : Body) (s0 : AppState)
    (e : PyErr) (hfail : sessionErr body s0 = some e) :
    ((sessionOnset s0).isEmpty = true →
      (application ka mx ia body s0).2.2 = some (PyErr.excelError e)) ∧
    ((sessionOnset s0).isEmpty = false →
      (application ka mx ia body s0).2.2
        = (match (close_workbooks (sessionBodyState body s0) (sessionCreated body s0)).2.2 with
           | some ce => some ce
           | none => some (PyErr.excelError e))) := by
  have hclean : ka = true ∨ (sessionErr body s0).isSome = true := Or.inr (by rw [hfail]; rfl)
  constructor
  · intro honset
    rw [application_cleanup_kill ka mx ia body s0 hclean honset]
    show Option.map PyErr.excelError (sessionErr body s0) = _
    rw [hfail]
    rfl
  · intro honset
    rw [application_cleanup_close ka mx ia body s0 hclean honset]
    show (match (close_workbooks (sessionBodyState body s0) (sessionCreated body s0)).2.2 with
          | some ce => some ce
          | none => Option.map PyErr.excelError (sessionErr body s0)) = _
    rw [hfail]
    cases (close_workbooks (sessionBodyState body s0) (sessionCreated body s0)).2.2 with
    | none => rfl
    | some ce => rfl

/-- Witness for the amended C4 at a concrete input: failing body with a
well-behaved created workbook on the close path; every close succeeds, so the
wrapped original failure reaches the caller. -/
theorem application_cleanup_error_policy_witness :
    (application false true false bodyFailBook1 sRunningOld).2.2
      = some (PyErr.excelError (PyErr.userError "boom")) := by
  have h := (application_cleanup_error_policy false true false bodyFailBook1 sRunningOld
    (PyErr.userError "boom") (by decide)).2 (by decide)
  exact h.trans (by decide)

/-- Claim C9: on the success path with `kill_after = false`, `application`
reveals the session-created documents using the fixed window-state code
`-4137` (maximized) when `maximize` is true and `-4140` (minimized) when
`maximize` is false - the trace carries one window-set action at that code
per non-excluded created document - and applies the add-in reload workaround
(one Installed off/on toggle per installed add-in) if and only if
`include_addins` is true; on every other path (`kill_after = true`, or a
failed body) the trace holds only cleanup actions: no window-set and no
add-in toggle ever runs there. -/
theorem application_success_path_effects (ka mx ia : Bool) (body : Body) (s0 : AppState) :
    (ka = false → sessionErr body s0 = none →
      (application ka mx ia body s0).2.2 = none ∧
      (application ka mx ia body s0).2.1
        = (if ia then ((sessionBodyState body s0).addIns.filter
              (fun a => a.installed)).map (fun _ => Event.addinToggle) else [])
          ++ ((sessionCreated body s0).filter
              (fun t => !(pyIn (sessionBodyState body s0).startupPath t.fullName))).map
              (fun t => Event.windowSet t.fullName (if mx then (-4137 : Int) else -4140))) ∧
    ((ka = true ∨ (sessionErr body s0).isSome = true) →
      ∀ ev ∈ (application ka mx ia body s0).2.1, isCleanupEvent ev = true) := by
  constructor
  · intro hka herr
    rw [application_success ka mx ia body s0 hka herr]
    refine ⟨rfl, ?_⟩
    show (if ia then toggleAddins (sessionBodyState body s0).addIns
        else ((sessionBodyState body s0).addIns, [])).2
      ++ (see_excel
        { sessionBodyState body s0 with
            addIns := (if ia then toggleAddins (sessionBodyState body s0).addIns
              else ((sessionBodyState body s0).addIns, [])).1 }
        (sessionCreated body s0) (if mx then (-4137 : Int) else -4140)).2 = _
    rw [see_excel_eq]
    by_cases hia : ia = true
    · rw [if_pos hia, if_pos hia, toggleAddins_eq]
    · rw [if_neg hia, if_neg hia]
  · intro hclean ev hev
    by_cases honset : (sessionOnset s0).isEmpty = true
    · rw [application_cleanup_kill ka mx ia body s0 hclean honset] at hev
      have hev' : ev ∈ [Event.killAll] := hev
      rw [List.mem_singleton.mp hev']
      rfl
    · have hf : (sessionOnset s0).isEmpty = false := Bool.eq_false_iff.mpr honset
      rw [application_cleanup_close ka mx ia body s0 hclean hf] at hev
      have hev' : ev ∈ (close_workbooks (sessionBodyState body s0)
        (sessionCreated body s0)).2.1 := hev
      exact (close_workbooks_events_shape _ _ ev hev').1

/-- Witness for C9 at a concrete input: success with `kill_after = false`,
`maximize = true`, `include_addins = true`, one installed add-in, one created
document; the trace is exactly one add-in toggle followed by one window-set
at `-4137`. -/
theorem application_success_path_effects_witness :
    (application false true true bodyAddBook1 sRunningOldAddins).2.2 = none ∧
    (application false true true bodyAddBook1 sRunningOldAddins).2.1
      = [Event.addinToggle, Event.windowSet "Book1" (-4137)] := by
  have h := (application_success_path_effects false true true bodyAddBook1
    sRunningOldAddins).1 rfl (by decide)
  exact ⟨h.1, h.2.trans (by decide)⟩

